import Mathlib

/-!
Verification of the SustainML carbon footprint node
(`src/carbon_footprint_node.py`) against its design specification.

The embedding models the Python module shallowly:
* floating point quantities become rationals;
* the backend log parsing and entry selection performed by
  `create_tracker` (lines 46-64) becomes a pure function from the parsed
  log list (or `none` when `parser.parse_all_logs` raised) to the message
  placed on the interprocess queue;
* the supervisory logic of `task_callback` (lines 90-112) becomes a pure
  function from an abstract worker result (whether the child joined in
  time, its exit code, what the queue holds) to a measurement outcome;
* the output object mutated through setters becomes a record holding the
  final value of every field, with a distinguished state for a field
  never written;
* JSON encoding and decoding, declared boundary plumbing by the
  specification, is modelled structurally: decoding the user metadata
  yields `Except String Metadata` (an `Except.error` when `json.loads`
  raised) and encoded payloads are kept as structured values.
-/

namespace CarbonNode

/-- The optional `pred` object of a backend log entry; the numeric field
keyed `co2eq (g)` may be absent, in which case `dict.get` defaults to 0. -/
structure Pred where
  co2eq_g : Option ℚ
deriving DecidableEq

/-- One parsed backend log entry, as returned by `parser.parse_all_logs`. -/
structure LogEntry where
  pred : Option Pred
deriving DecidableEq

/-- Carbon mass read from an entry: `pred.get("co2eq (g)", 0)`. -/
def entryCo2 (e : LogEntry) : ℚ :=
  match e.pred with
  | none => 0
  | some p => p.co2eq_g.getD 0

/-- The selection test of line 55: `pred and pred.get("co2eq (g)", 0) > 0`. -/
def entryUsable (e : LogEntry) : Bool :=
  match e.pred with
  | none => false
  | some p => decide (0 < p.co2eq_g.getD 0)

/-- What the tracker child places on the interprocess queue: either a
carbon reading or a caught exception rendered as its message. -/
inductive QueueMsg where
  | carbon (c : ℚ)
  | exc (msg : String)
deriving DecidableEq

/-- The log-reading tail of `create_tracker` (lines 46-64). The argument
is `none` when `parser.parse_all_logs` raised (the inner `except` sets
`logs = None`); otherwise it is the parsed entry list. Python truthiness
makes both `None` and the empty list take the `carbon = 0.0` branch and
enqueue a plain zero; a non-empty list is scanned most-recent-first for
the first usable entry, and if none exists the `for`-`else` raises
`RuntimeError`, which the outer `except` enqueues as an exception. -/
def create_tracker (logs : Option (List LogEntry)) : QueueMsg :=
  match logs with
  | none => QueueMsg.carbon 0
  | some l =>
    if l.isEmpty then QueueMsg.carbon 0
    else
      match l.reverse.find? entryUsable with
      | some e => QueueMsg.carbon (entryCo2 e)
      | none => QueueMsg.exc ("No non-zero CarbonTracker entry found")

/-- Observable result of the child process as the supervisor sees it:
whether `proc.join(timeout=10)` returned with the child finished, the
exit code, and the queue content (`none` models an empty queue). -/
structure WorkerResult where
  finishedInTime : Bool
  exitcode : Int
  queue : Option QueueMsg
deriving DecidableEq

/-- The measurement outcome taxonomy of the specification. -/
inductive Outcome where
  | success (carbon : ℚ)
  | timeout
  | unsupported
  | failure (reason : String)
deriving DecidableEq

/-- Supervisory logic of `task_callback`, lines 94-112: the timeout check
comes first, then the exit-code 70 check, and only then is the queue
inspected (empty queue, exception in queue, or carbon value). -/
def superviseWorker (w : WorkerResult) : Outcome :=
  if w.finishedInTime = false then Outcome.timeout
  else if w.exitcode = 70 then Outcome.unsupported
  else
    match w.queue with
    | none =>
        Outcome.failure
          ("No result obtained from the tracker process; failed to obtain carbon footprint value.")
    | some (QueueMsg.exc m) => Outcome.failure ("Error creating tracker: " ++ m)
    | some (QueueMsg.carbon c) => Outcome.success c

/-- The worker result produced by a run in which the child joined in
time, exited normally, and enqueued what `create_tracker` computed from
the given parsed logs. -/
def worker_of (logs : Option (List LogEntry)) : WorkerResult :=
  { finishedInTime := true, exitcode := 0, queue := some (create_tracker logs) }

/-- Hardware descriptor values when both accessor calls succeed:
`hw.latency()` in milliseconds and `hw.power_consumption()`. -/
structure HwDescriptor where
  latency : ℚ
  power_consumption : ℚ
deriving DecidableEq

/-- Lines 80-85: `energy_consump = hw.power_consumption() * (hw.latency()
/ (3600 * 1000))`; any exception from the descriptor degrades to 0. -/
def energy_consump (hw : Option HwDescriptor) : ℚ :=
  match hw with
  | none => 0
  | some h => h.power_consumption * (h.latency / (3600 * 1000))

/-- A JSON scalar usable as the `num_outputs` value (string or number). -/
inductive JsonScalar where
  | str (s : String)
  | num (n : Int)
deriving DecidableEq

/-- Decoded user metadata dictionary: both keys are optional. -/
structure Metadata where
  num_outputs : Option JsonScalar
  model_restrains : Option (List String)
deriving DecidableEq

/-- The payload object encoded on line 134. -/
structure Payload where
  num_outputs : JsonScalar
  model_restrains : List String
deriving DecidableEq

/-- Lines 128-134: when `num_outputs` is present and not the empty
string, build the payload whose restriction list is the model identifier
followed by any supplied `model_restrains`; otherwise no payload. -/
def extraPayload (model : String) (md : Metadata) : Option Payload :=
  match md.num_outputs with
  | none => none
  | some n =>
    if n = JsonScalar.str "" then none
    else some { num_outputs := n, model_restrains := model :: md.model_restrains.getD [] }

/-- Final state of the `extra_data` output field: never written, written
with the metadata payload, or written with an error object. -/
inductive ExtraData where
  | unset
  | payload (p : Payload)
  | errorInfo (msg : String)
deriving DecidableEq

/-- Final state of the `co2` output object after `task_callback`. -/
structure Co2Record where
  carbon_footprint : ℚ
  energy_consumption : ℚ
  carbon_intensity : ℚ
  extra_data : ExtraData
deriving DecidableEq

/-- The `except` block of lines 137-145: every numeric field is set to
zero and `extra_data` is written with the error object. -/
def fallbackRecord (msg : String) : Co2Record :=
  { carbon_footprint := 0
    energy_consumption := 0
    carbon_intensity := 0
    extra_data := ExtraData.errorInfo ("Failed to obtain carbon footprint information: " ++ msg) }

/-- `task_callback` (lines 78-145) as a function of the model identifier,
the result of decoding the user metadata, the hardware descriptor values
(or `none` when an accessor raised) and the worker result. On a timeout
the child is terminated and an exception raised; exit code 70 and queue
inspection raise their respective exceptions; every raised exception
lands in the `except` block, which overwrites the three numeric fields
with zeros (even when they were already set from a successful
measurement, as happens when metadata decoding raises after line 121)
and writes the error object into `extra_data`. -/
def task_callback (ml_model : String) (user_meta : Except String Metadata)
    (hw : Option HwDescriptor) (w : WorkerResult) : Co2Record :=
  let energy := energy_consump hw
  match superviseWorker w with
  | Outcome.timeout =>
      fallbackRecord
        ("tracker child process did not finish within the timeout period. Terminating...")
  | Outcome.unsupported =>
      fallbackRecord
        ("No hardware components available; failed to obtain carbon footprint value.")
  | Outcome.failure r => fallbackRecord r
  | Outcome.success carbon =>
    let intensity := if 0 < energy then carbon / energy else 0
    match user_meta with
    | Except.error e => fallbackRecord e
    | Except.ok md =>
      match extraPayload ml_model md with
      | none =>
          { carbon_footprint := carbon
            energy_consumption := energy
            carbon_intensity := intensity
            extra_data := ExtraData.unset }
      | some p =>
          { carbon_footprint := carbon
            energy_consumption := energy
            carbon_intensity := intensity
            extra_data := ExtraData.payload p }

/-- A configuration request: identifiers plus an opaque string. -/
structure ConfigRequest where
  node_id : String
  transaction_id : String
  configuration : String
deriving DecidableEq

/-- The JSON object `json.dumps({"error": msg})` kept structurally. -/
structure ErrorObj where
  error : String
deriving DecidableEq

/-- Final state of the configuration response object. -/
structure ConfigResponse where
  node_id : String
  transaction_id : String
  configuration : ErrorObj
  success : Bool
  err_code : Nat
deriving DecidableEq

/-- `configuration_callback` (lines 150-161): echo the identifiers, set
the configuration field to the unsupported-request error object, report
failure with error code 1. -/
def configuration_callback (req : ConfigRequest) : ConfigResponse :=
  { node_id := req.node_id
    transaction_id := req.transaction_id
    configuration := { error := "Unsupported configuration request: " ++ req.configuration }
    success := false
    err_code := 1 }

/-- Concrete log list holding a single entry reporting 50 g of CO2eq. -/
def sample_logs_50 : List LogEntry := [{ pred := some { co2eq_g := some 50 } }]

/-- Hardware values of the worked scenario: latency one hour in
milliseconds, power 100 W. -/
def hw_scenario : Option HwDescriptor := some { latency := 3600000, power_consumption := 100 }

/-- Metadata dictionary with neither optional key. -/
def md_empty : Metadata := { num_outputs := none, model_restrains := none }

/-- On any successful measurement the published carbon footprint is the
carbon value itself, whatever the metadata decoding produced a payload
or not. -/
theorem success_publishes_carbon (model : String) (md : Metadata) (hw : Option HwDescriptor)
    (w : WorkerResult) (c : ℚ) (h : superviseWorker w = Outcome.success c) :
    (task_callback model (Except.ok md) hw w).carbon_footprint = c := by
  unfold task_callback
  rw [h]
  cases hp : extraPayload model md <;> simp [hp]

/-- C1: the claim states the published carbon footprint equals the
carbon mass divided by 1000, so a 50 g reading publishes 0.05. At a
concrete run whose backend log reports 50 g, the published footprint is
50, and 50 differs from 50 / 1000: the claim is false on the code. -/
theorem C1_counterexample :
    (task_callback ("m") (Except.ok md_empty) hw_scenario
        (worker_of (some sample_logs_50))).carbon_footprint = 50
    ∧ (50 : ℚ) ≠ 50 / 1000 := by
  constructor
  · rfl
  · norm_num

/-- C1 amended: for every successful measurement the published carbon
footprint equals the carbon mass in grams unchanged (no division by
1000); a backend reading of 50 g yields a published footprint of 50. -/
theorem C1_amended_theorem (model : String) (md : Metadata) (hw : Option HwDescriptor)
    (w : WorkerResult) (c : ℚ) (h : superviseWorker w = Outcome.success c) :
    (task_callback model (Except.ok md) hw w).carbon_footprint = c :=
  success_publishes_carbon model md hw w c h

/-- C1 amended, witnessed at the 50 g scenario run. -/
theorem C1_amended_witness :
    (task_callback ("m") (Except.ok md_empty) hw_scenario
        (worker_of (some sample_logs_50))).carbon_footprint = 50 :=
  C1_amended_theorem ("m") md_empty hw_scenario (worker_of (some sample_logs_50)) 50 (by decide)

/-- C2: the claim states a metadata decoding failure never zeroes an
otherwise-successful measurement. At a concrete run the measurement
succeeds with 50 g, yet with a failing metadata decode all three numeric
fields are published as 0 and the whole record is the zeroed fallback:
the claim is false on the code. -/
theorem C2_counterexample :
    superviseWorker (worker_of (some sample_logs_50)) = Outcome.success 50
    ∧ (task_callback ("m") (Except.error ("Expecting value: line 1 column 1 (char 0)"))
        hw_scenario (worker_of (some sample_logs_50))).carbon_footprint = 0
    ∧ (task_callback ("m") (Except.error ("Expecting value: line 1 column 1 (char 0)"))
        hw_scenario (worker_of (some sample_logs_50))).energy_consumption = 0
    ∧ (task_callback ("m") (Except.error ("Expecting value: line 1 column 1 (char 0)"))
        hw_scenario (worker_of (some sample_logs_50))).carbon_intensity = 0 := by
  refine ⟨by decide, rfl, rfl, rfl⟩

/-- C2 amended: when the measurement succeeds but metadata decoding
fails, the exception handler overwrites all three numeric fields with
zeros and writes the error into the extra data: the published record is
exactly the zeroed fallback carrying the metadata error message. -/
theorem C2_amended_theorem (model : String) (e : String) (hw : Option HwDescriptor)
    (w : WorkerResult) (c : ℚ) (h : superviseWorker w = Outcome.success c) :
    task_callback model (Except.error e) hw w = fallbackRecord e := by
  unfold task_callback
  rw [h]

/-- C2 amended, witnessed at the 50 g scenario run with a failing
metadata decode. -/
theorem C2_amended_witness :
    task_callback ("m") (Except.error ("bad json")) hw_scenario
        (worker_of (some sample_logs_50))
      = fallbackRecord ("bad json") :=
  C2_amended_theorem ("m") ("bad json") hw_scenario
    (worker_of (some sample_logs_50)) 50 (by decide)

/-- C3: the claim states an empty backend log set yields the outcome
Failure and an all-zero record with an error extra data, never a
successful zero measurement. At a concrete run whose parsed log list is
empty, the child enqueues a plain 0.0, the outcome is Success 0, the
published energy consumption is the nonzero estimate 100 and the extra
data field is never written: the claim is false on the code. -/
theorem C3_counterexample :
    superviseWorker (worker_of (some [])) = Outcome.success 0
    ∧ (task_callback ("m") (Except.ok md_empty) hw_scenario
        (worker_of (some []))).energy_consumption = 100
    ∧ (task_callback ("m") (Except.ok md_empty) hw_scenario
        (worker_of (some []))).extra_data = ExtraData.unset := by
  refine ⟨by decide, ?_, rfl⟩
  show energy_consump hw_scenario = 100
  norm_num [energy_consump, hw_scenario]

/-- C3 amended: only when the parsed log list is non-empty yet contains
no entry with carbon mass strictly greater than zero does the child
raise, making the outcome the Failure wrapping the no-non-zero-entry
message and the published record the all-zero fallback carrying that
error; an empty log list instead yields Success 0, published as a
successful zero measurement. -/
theorem C3_amended_theorem (logs : List LogEntry) (model : String) (md : Metadata)
    (hw : Option HwDescriptor)
    (hne : logs ≠ []) (hall : ∀ e ∈ logs, entryUsable e = false) :
    superviseWorker (worker_of (some logs))
        = Outcome.failure ("Error creating tracker: No non-zero CarbonTracker entry found")
    ∧ task_callback model (Except.ok md) hw (worker_of (some logs))
        = fallbackRecord ("Error creating tracker: No non-zero CarbonTracker entry found")
    ∧ create_tracker (some []) = QueueMsg.carbon 0 := by
  have hisE : logs.isEmpty = false := by
    cases logs with
    | nil => exact absurd rfl hne
    | cons a t => rfl
  have hfind : logs.reverse.find? entryUsable = none := by
    rw [List.find?_eq_none]
    intro x hx
    simp [hall x (List.mem_reverse.mp hx)]
  have hct : create_tracker (some logs)
      = QueueMsg.exc ("No non-zero CarbonTracker entry found") := by
    simp [create_tracker, hisE, hfind]
  have hsup : superviseWorker (worker_of (some logs))
      = Outcome.failure ("Error creating tracker: No non-zero CarbonTracker entry found") := by
    simp only [worker_of, superviseWorker, hct]
    decide
  refine ⟨hsup, ?_, rfl⟩
  unfold task_callback
  rw [hsup]

/-- C3 amended, witnessed at a one-entry log whose entry lacks a pred
object. -/
theorem C3_amended_witness :
    superviseWorker (worker_of (some [{ pred := none }]))
        = Outcome.failure ("Error creating tracker: No non-zero CarbonTracker entry found")
    ∧ task_callback ("m") (Except.ok md_empty) hw_scenario (worker_of (some [{ pred := none }]))
        = fallbackRecord ("Error creating tracker: No non-zero CarbonTracker entry found")
    ∧ create_tracker (some []) = QueueMsg.carbon 0 :=
  C3_amended_theorem [{ pred := none }] ("m") md_empty hw_scenario (by decide) (by decide)

/-- C4: the claim states the intensity divides by the energy consumption
in kWh and that the worked scenario (100 W, one hour, 50 g) publishes an
intensity of 500. The code divides by its precomputed estimate, which in
that scenario is 100, so the published intensity is 1 / 2, and 1 / 2
differs from 500: the claim is false on the code. -/
theorem C4_counterexample :
    (task_callback ("m") (Except.ok md_empty) hw_scenario
        (worker_of (some sample_logs_50))).carbon_intensity = 1 / 2
    ∧ (1 / 2 : ℚ) ≠ 500 := by
  have he : energy_consump hw_scenario = 100 := by
    norm_num [energy_consump, hw_scenario]
  constructor
  · show (if 0 < energy_consump hw_scenario
        then (50 : ℚ) / energy_consump hw_scenario else 0) = 1 / 2
    rw [he, if_pos (by norm_num : (0 : ℚ) < (100 : ℚ))]
    norm_num
  · norm_num

/-- C4 amended: on a successful measurement the published intensity is
the carbon mass divided by the precomputed energy estimate exactly as
stored (no conversion to kWh) when that estimate is strictly positive,
and 0 otherwise; the worked scenario publishes 1 / 2. -/
theorem C4_amended_theorem (model : String) (md : Metadata) (hw : Option HwDescriptor)
    (w : WorkerResult) (c : ℚ) (h : superviseWorker w = Outcome.success c) :
    (task_callback model (Except.ok md) hw w).carbon_intensity
      = if 0 < energy_consump hw then c / energy_consump hw else 0 := by
  unfold task_callback
  rw [h]
  cases hp : extraPayload model md <;> simp [hp]

/-- C4 amended, witnessed at the worked scenario. -/
theorem C4_amended_witness :
    (task_callback ("m") (Except.ok md_empty) hw_scenario
        (worker_of (some sample_logs_50))).carbon_intensity
      = if 0 < energy_consump hw_scenario then 50 / energy_consump hw_scenario else 0 :=
  C4_amended_theorem ("m") md_empty hw_scenario (worker_of (some sample_logs_50)) 50 (by decide)

/-- C5: when the worker does not finish within the deadline the outcome
is exactly Timeout and the published record is the zeroed fallback,
whatever the queue holds: the conduit is never read. -/
theorem C5_timeout_theorem (model : String) (um : Except String Metadata)
    (hw : Option HwDescriptor) (w : WorkerResult) (h : w.finishedInTime = false) :
    superviseWorker w = Outcome.timeout
    ∧ task_callback model um hw w
        = fallbackRecord
            ("tracker child process did not finish within the timeout period. Terminating...") := by
  have hs : superviseWorker w = Outcome.timeout := by
    unfold superviseWorker
    rw [h]
    rfl
  refine ⟨hs, ?_⟩
  unfold task_callback
  rw [hs]

/-- C5, witnessed at a timed-out worker whose queue even holds a carbon
sample: the sample is discarded. -/
theorem C5_timeout_witness :
    superviseWorker { finishedInTime := false, exitcode := 0, queue := some (QueueMsg.carbon 999) }
        = Outcome.timeout
    ∧ task_callback ("m") (Except.ok md_empty) hw_scenario
        { finishedInTime := false, exitcode := 0, queue := some (QueueMsg.carbon 999) }
        = fallbackRecord
            ("tracker child process did not finish within the timeout period. Terminating...") :=
  C5_timeout_theorem ("m") (Except.ok md_empty) hw_scenario
    { finishedInTime := false, exitcode := 0, queue := some (QueueMsg.carbon 999) } rfl

/-- C6: when the worker finishes in time with exit code 70 the outcome
is Unsupported and the published record is the zeroed fallback, whatever
the queue holds: the exit-code check precedes any queue inspection. -/
theorem C6_unsupported_theorem (model : String) (um : Except String Metadata)
    (hw : Option HwDescriptor) (w : WorkerResult)
    (hf : w.finishedInTime = true) (he : w.exitcode = 70) :
    superviseWorker w = Outcome.unsupported
    ∧ task_callback model um hw w
        = fallbackRecord
            ("No hardware components available; failed to obtain carbon footprint value.") := by
  have hs : superviseWorker w = Outcome.unsupported := by
    unfold superviseWorker
    rw [hf, he]
    rfl
  refine ⟨hs, ?_⟩
  unfold task_callback
  rw [hs]

/-- C6, witnessed at an exit-code-70 worker whose queue holds a carbon
sample: the sample is ignored. -/
theorem C6_unsupported_witness :
    superviseWorker { finishedInTime := true, exitcode := 70, queue := some (QueueMsg.carbon 123) }
        = Outcome.unsupported
    ∧ task_callback ("m") (Except.ok md_empty) hw_scenario
        { finishedInTime := true, exitcode := 70, queue := some (QueueMsg.carbon 123) }
        = fallbackRecord
            ("No hardware components available; failed to obtain carbon footprint value.") :=
  C6_unsupported_theorem ("m") (Except.ok md_empty) hw_scenario
    { finishedInTime := true, exitcode := 70, queue := some (QueueMsg.carbon 123) } rfl rfl

/-- C7: the energy estimate is the power draw times the latency divided
by 3600000 (milliseconds to hours), an absent or failing descriptor
degrades it to 0, and the estimate is a function of the hardware
descriptor alone, independent of the worker: on a successful measurement
the published energy consumption is exactly that estimate. -/
theorem C7_energy_theorem (l p : ℚ) (model : String) (md : Metadata)
    (hw : Option HwDescriptor) (w : WorkerResult) (c : ℚ)
    (h : superviseWorker w = Outcome.success c) :
    energy_consump (some { latency := l, power_consumption := p }) = p * (l / 3600000)
    ∧ energy_consump none = 0
    ∧ (task_callback model (Except.ok md) hw w).energy_consumption = energy_consump hw := by
  refine ⟨by norm_num [energy_consump], rfl, ?_⟩
  unfold task_callback
  rw [h]
  cases hp : extraPayload model md <;> simp [hp]

/-- C7, witnessed at the worked scenario values. -/
theorem C7_energy_witness :
    energy_consump (some { latency := 3600000, power_consumption := 100 })
        = (100 : ℚ) * (3600000 / 3600000)
    ∧ energy_consump none = 0
    ∧ (task_callback ("m") (Except.ok md_empty) hw_scenario
        (worker_of (some sample_logs_50))).energy_consumption = energy_consump hw_scenario :=
  C7_energy_theorem 3600000 100 ("m") md_empty hw_scenario
    (worker_of (some sample_logs_50)) 50 (by decide)

/-- C8: on a successful measurement whose metadata holds a non-empty
num_outputs and a model_restrains list, the published extra data is the
payload with the same num_outputs and the model identifier prepended to
the supplied restriction list. -/
theorem C8_metadata_theorem (model : String) (md : Metadata) (hw : Option HwDescriptor)
    (w : WorkerResult) (c : ℚ) (n : JsonScalar) (rs : List String)
    (hs : superviseWorker w = Outcome.success c)
    (hn : md.num_outputs = some n) (hne : n ≠ JsonScalar.str "")
    (hr : md.model_restrains = some rs) :
    (task_callback model (Except.ok md) hw w).extra_data
      = ExtraData.payload { num_outputs := n, model_restrains := model :: rs } := by
  have hp : extraPayload model md
      = some { num_outputs := n, model_restrains := model :: rs } := by
    simp [extraPayload, hn, hr, hne]
  unfold task_callback
  rw [hs]
  simp [hp]

/-- C8, witnessed at the worked example of the specification: metadata
num_outputs 3 with restriction list containing r1 and model gpt-x
publish num_outputs 3 with restriction list gpt-x, r1. -/
theorem C8_metadata_witness :
    (task_callback ("gpt-x")
        (Except.ok { num_outputs := some (JsonScalar.num 3), model_restrains := some ["r1"] })
        hw_scenario (worker_of (some sample_logs_50))).extra_data
      = ExtraData.payload { num_outputs := JsonScalar.num 3, model_restrains := ["gpt-x", "r1"] } :=
  C8_metadata_theorem ("gpt-x")
    { num_outputs := some (JsonScalar.num 3), model_restrains := some ["r1"] }
    hw_scenario (worker_of (some sample_logs_50)) 50 (JsonScalar.num 3) ["r1"]
    (by decide) rfl (by decide) rfl

/-- C9: the configuration callback echoes the node and transaction
identifiers of the request, reports failure with error code 1, and sets
the configuration field to the unsupported-request error object. -/
theorem C9_config_theorem (req : ConfigRequest) :
    (configuration_callback req).node_id = req.node_id
    ∧ (configuration_callback req).transaction_id = req.transaction_id
    ∧ (configuration_callback req).success = false
    ∧ (configuration_callback req).err_code = 1
    ∧ (configuration_callback req).configuration
        = { error := "Unsupported configuration request: " ++ req.configuration } :=
  ⟨rfl, rfl, rfl, rfl, rfl⟩

/-- C10: on a successful measurement whose decoded metadata lacks
num_outputs or maps it to the empty string, the extra data field is
never written while the numeric fields are still published. -/
theorem C10_no_extra_theorem (model : String) (md : Metadata) (hw : Option HwDescriptor)
    (w : WorkerResult) (c : ℚ)
    (hs : superviseWorker w = Outcome.success c)
    (hn : md.num_outputs = none ∨ md.num_outputs = some (JsonScalar.str "")) :
    (task_callback model (Except.ok md) hw w).extra_data = ExtraData.unset
    ∧ (task_callback model (Except.ok md) hw w).carbon_footprint = c
    ∧ (task_callback model (Except.ok md) hw w).energy_consumption = energy_consump hw := by
  have hp : extraPayload model md = none := by
    rcases hn with hn | hn
    · simp [extraPayload, hn]
    · simp [extraPayload, hn]
  unfold task_callback
  rw [hs]
  simp [hp]

/-- C10, witnessed at a successful 50 g run whose metadata maps
num_outputs to the empty string. -/
theorem C10_no_extra_witness :
    (task_callback ("m")
        (Except.ok { num_outputs := some (JsonScalar.str ""), model_restrains := some ["r1"] })
        hw_scenario (worker_of (some sample_logs_50))).extra_data = ExtraData.unset
    ∧ (task_callback ("m")
        (Except.ok { num_outputs := some (JsonScalar.str ""), model_restrains := some ["r1"] })
        hw_scenario (worker_of (some sample_logs_50))).carbon_footprint = 50
    ∧ (task_callback ("m")
        (Except.ok { num_outputs := some (JsonScalar.str ""), model_restrains := some ["r1"] })
        hw_scenario (worker_of (some sample_logs_50))).energy_consumption
        = energy_consump hw_scenario :=
  C10_no_extra_theorem ("m")
    { num_outputs := some (JsonScalar.str ""), model_restrains := some ["r1"] }
    hw_scenario (worker_of (some sample_logs_50)) 50 (by decide) (Or.inr rfl)

end CarbonNode
